import Mathlib

/-!
Verification of the serverwa HTTP gateway (src/serverwa/server.js).

The gateway's original logic is embedded shallowly:

* `formatNumber` models the recipient normalization
  `number.includes('@c.us') ? number : number.replace(/^0|\+|\D/g, '') + '@c.us'`
  used by both POST /send-message and POST /send-image.
  The regex replacement is modelled character by character by `scanReplace`,
  which mirrors the scan of the global regex `/^0|\+|\D/g`: at the start of
  the string the alternative `^0` can fire and delete a single zero; at all
  positions `\+` and `\D` delete any non-digit character; digits are kept.
* `handleSendMessage`, `handleSendImage`, `handleStatus` and
  `errorMiddleware` model the four route handlers.  Request bodies are
  records of `Option String` fields (`none` = field absent from the JSON
  body); JavaScript truthiness of a string field is `truthy`.
  The external whatsapp-web.js client is a parameter: an adapter function
  returning `Except String String` (an error message, or the sent message
  id `sendMessage.id._serialized`).  The mime-types library's
  `mime.extension` is likewise a parameter `mimeExt`.
* Responses are records whose `Option String` fields record which JSON
  fields are present in the body (`none` = field absent).
-/

/-- The canonical suffix `@c.us` as a character list. -/
def waSuffix : List Char := ['@', 'c', '.', 'u', 's']

/-- `isPrefixList p s` holds when `p` is a prefix of `s` (Boolean). -/
def isPrefixList : List Char → List Char → Bool
  | [], _ => true
  | _ :: _, [] => false
  | a :: as, b :: bs => a == b && isPrefixList as bs

/-- `includesSub pat s` models JavaScript `s.includes(pat)`:
`pat` occurs as a contiguous substring of `s`. -/
def includesSub (pat : List Char) : List Char → Bool
  | [] => isPrefixList pat []
  | c :: rest => isPrefixList pat (c :: rest) || includesSub pat rest

/-- One pass of the global regex `/^0|\+|\D/g` with replacement `''`.
`atStart` records whether the scanner is at string position 0, where the
anchored alternative `^0` can match.  Alternatives are tried in the
regex's order: `^0`, then `\+`, then `\D`; a match is deleted, a
non-matching (digit) character is kept. -/
def scanReplace (atStart : Bool) : List Char → List Char
  | [] => []
  | c :: rest =>
    if atStart && c == '0' then scanReplace false rest
    else if c == '+' then scanReplace false rest
    else if !c.isDigit then scanReplace false rest
    else c :: scanReplace false rest

/-- `number.replace(/^0|\+|\D/g, '')` from server.js. -/
def replaceNumber (s : List Char) : List Char := scanReplace true s

/-- The recipient normalization of POST /send-message and POST /send-image:
`number.includes('@c.us') ? number : number.replace(/^0|\+|\D/g, '') + '@c.us'`. -/
def formatNumber (number : String) : String :=
  if includesSub waSuffix number.data then number
  else String.mk (replaceNumber number.data ++ waSuffix)

theorem isPrefixList_refl (l : List Char) : isPrefixList l l = true := by
  induction l with
  | nil => rfl
  | cons c rest ih => simp [isPrefixList, ih]

theorem includesSub_append_right (pat a : List Char) :
    includesSub pat (a ++ pat) = true := by
  induction a with
  | nil =>
    cases pat with
    | nil => rfl
    | cons c rest => simp [includesSub, isPrefixList_refl]
  | cons c a ih => simp [includesSub, ih]

theorem scanReplace_false (s : List Char) :
    scanReplace false s = s.filter Char.isDigit := by
  induction s with
  | nil => rfl
  | cons c rest ih =>
    simp only [scanReplace, Bool.false_and, if_false, List.filter]
    by_cases h : c == '+'
    · have hc : c = '+' := by simpa using h
      subst hc
      simp [ih, Char.isDigit]
    · simp only [h, if_false]
      by_cases hd : c.isDigit
      · simp [hd, ih]
      · simp [hd, ih]

theorem replaceNumber_eq (s : List Char) :
    replaceNumber s =
      (s.filter Char.isDigit).drop (if s.head? = some '0' then 1 else 0) := by
  cases s with
  | nil => rfl
  | cons c rest =>
    by_cases h : c = '0'
    · subst h
      simp [replaceNumber, scanReplace, scanReplace_false, List.filter,
        Char.isDigit]
    · have hne : (c == '0') = false := by simpa using h
      have hh : (( c :: rest ).head? = some '0') = False := by
        simp [List.head?, h]
      rw [replaceNumber]
      rw [show scanReplace true (c :: rest)
            = scanReplace false (c :: rest) by
        simp [scanReplace, hne]]
      rw [scanReplace_false]
      simp [h]

/-- JavaScript truthiness of an optional string field: a field that is
absent (`none`) or present as the empty string is falsy; any other string
is truthy. -/
def truthy : Option String → Bool
  | none => false
  | some s => !s.isEmpty

/-- A JSON response of the gateway: the HTTP status plus the body fields
that may occur.  An `Option` field that is `none` is absent from the JSON
body. -/
structure ApiResponse where
  status : Nat
  success : Bool
  message : Option String
  error : Option String
  data : Option String

/-- Request body of POST /send-message; `none` marks an absent field. -/
structure SendMessageBody where
  number : Option String
  message : Option String

/-- Result of the POST /send-message handler: the HTTP response together
with the adapter invocation — `none` when `client.sendMessage` was never
called, `some (address, text)` when it was called with those arguments. -/
structure SendMessageResult where
  response : ApiResponse
  adapterCalled : Option (String × String)

/-- The POST /send-message handler of server.js.  `adapter` models the
external `client.sendMessage`: it returns either the thrown error's
message or the sent message's `id._serialized`. -/
def handleSendMessage (body : SendMessageBody)
    (adapter : String → String → Except String String) : SendMessageResult :=
  if !(truthy body.number) || !(truthy body.message) then
    { response :=
        { status := 400, success := false,
          message := some "Number and message are required",
          error := none, data := none },
      adapterCalled := none }
  else
    match adapter (formatNumber (body.number.getD "")) (body.message.getD "") with
    | Except.ok id =>
      { response :=
          { status := 200, success := true,
            message := some "Message sent successfully",
            error := none, data := some id },
        adapterCalled := some (formatNumber (body.number.getD ""), body.message.getD "") }
    | Except.error e =>
      { response :=
          { status := 500, success := false,
            message := some "Failed to send message",
            error := some e, data := none },
        adapterCalled := some (formatNumber (body.number.getD ""), body.message.getD "") }

/-- Request body of POST /send-image; `none` marks an absent field. -/
structure SendImageBody where
  number : Option String
  caption : Option String
  imageBase64 : Option String
  mimeType : Option String

/-- The `MessageMedia` object built by POST /send-image: mime type, base64
data, and the filename `image.<extension>`. -/
structure MessageMedia where
  mimetype : String
  mediaData : String
  filename : String

/-- One invocation of `client.sendMessage(formattedNumber, media, options)`
from POST /send-image. -/
structure ImageSendCall where
  address : String
  media : MessageMedia
  caption : String
  sendMediaAsDocument : Bool

/-- Result of the POST /send-image handler, analogous to
`SendMessageResult`. -/
structure SendImageResult where
  response : ApiResponse
  adapterCall : Option ImageSendCall

/-- The adapter call POST /send-image builds from its body once validation
passes: destructuring applies the default mime type image/jpeg exactly
when the `mimeType` field is absent; `mimeExt` models `mime.extension`
from the mime-types library; the caption defaults to the empty string. -/
def imageCall (body : SendImageBody) (mimeExt : String → String) : ImageSendCall :=
  { address := formatNumber (body.number.getD ""),
    media :=
      { mimetype := body.mimeType.getD "image/jpeg",
        mediaData := body.imageBase64.getD "",
        filename := "image." ++ mimeExt (body.mimeType.getD "image/jpeg") },
    caption := body.caption.getD "",
    sendMediaAsDocument := false }

/-- The POST /send-image handler of server.js. -/
def handleSendImage (body : SendImageBody) (mimeExt : String → String)
    (adapter : ImageSendCall → Except String String) : SendImageResult :=
  if !(truthy body.imageBase64) || !(truthy body.number) then
    { response :=
        { status := 400, success := false, message := none,
          error := some "Number and imageBase64 are required", data := none },
      adapterCall := none }
  else
    match adapter (imageCall body mimeExt) with
    | Except.ok id =>
      { response :=
          { status := 200, success := true,
            message := some "Image sent successfully",
            error := none, data := some id },
        adapterCall := some (imageCall body mimeExt) }
    | Except.error e =>
      { response :=
          { status := 500, success := false,
            message := some "Failed to send image",
            error := some e, data := none },
        adapterCall := some (imageCall body mimeExt) }

/-- The `wid` object inside `client.info`, as read by GET /status. -/
structure WidInfo where
  user : String

/-- The `client.info` object of whatsapp-web.js when a session exists. -/
structure ClientInfo where
  wid : WidInfo
  platform : String
  pushname : String

/-- The `info` snapshot included in the GET /status response body. -/
structure InfoSnapshot where
  wid : String
  platform : String
  pushname : String

/-- Response body of GET /status. -/
structure StatusResponse where
  connected : Bool
  status : String
  info : Option InfoSnapshot

/-- The GET /status handler of server.js; `clientInfo` models `client.info`
(`none` when the client has no current session, making
`client.info ? true : false` evaluate to false). -/
def handleStatus (clientInfo : Option ClientInfo) : StatusResponse :=
  match clientInfo with
  | none =>
    { connected := false, status := "Waiting for connection", info := none }
  | some i =>
    { connected := true, status := "Connected",
      info := some
        { wid := i.wid.user, platform := i.platform, pushname := i.pushname } }

/-- The catch-all error-handling middleware of server.js, applied to an
uncaught error whose message is `errMessage`. -/
def errorMiddleware (errMessage : String) : ApiResponse :=
  { status := 500, success := false,
    message := some "Internal server error", error := some errMessage,
    data := none }

/-- Strip a single leading zero from a character list (the claims' words:
"a single leading zero stripped"). -/
def stripOneZero : List Char → List Char
  | '0' :: rest => rest
  | s => s

/-- The digit characters of a string, in order. -/
def digitsOf (x : String) : List Char := x.data.filter Char.isDigit

/-- Normalization result predicted by claim C1, following the spec's
words: the input's digits only, with a single leading zero stripped,
followed by the suffix `@c.us`. -/
def specC1Result (x : String) : String :=
  String.mk (stripOneZero (digitsOf x) ++ waSuffix)

/-- Claim C2's words for the pass-through condition: the input ends with
the canonical suffix `@c.us`. -/
def endsWithSuffix (s : String) : Bool :=
  isPrefixList waSuffix.reverse s.data.reverse

/-- Claim C1 fails on the input "+0812345678": ten digits decorated with a
leading plus sign, not containing `@c.us`, yet normalization keeps the
zero — the regex alternative that strips a zero is anchored to the first
character of the raw input, and here that character is the plus sign —
while the claim predicts the digits' leading zero stripped. -/
theorem claim_C1_counterexample :
    (10 ≤ (digitsOf "+0812345678").length ∧
      (digitsOf "+0812345678").length ≤ 15 ∧
      includesSub waSuffix ("+0812345678").data = false ∧
      ∀ c ∈ ("+0812345678").data, c.isDigit = true ∨ c.isAlpha = false) ∧
    formatNumber "+0812345678" = "0812345678@c.us" ∧
    specC1Result "+0812345678" = "812345678@c.us" ∧
    formatNumber "+0812345678" ≠ specC1Result "+0812345678" := by
  decide

/-- Claim C1, amended: for every input of 10 to 15 digits with arbitrary
leading zero, plus sign, and punctuation decoration, not containing
`@c.us`, normalization returns the input's digits only — a single leading
zero being stripped exactly when that zero is the input's first
character — followed by the suffix `@c.us`. -/
theorem claim_C1_amended (x : String)
    (_hlen : 10 ≤ (digitsOf x).length ∧ (digitsOf x).length ≤ 15)
    (hns : includesSub waSuffix x.data = false)
    (_hdec : ∀ c ∈ x.data, c.isDigit = true ∨ c.isAlpha = false) :
    formatNumber x =
      String.mk
        ((digitsOf x).drop (if x.data.head? = some '0' then 1 else 0)
          ++ waSuffix) := by
  rw [formatNumber, if_neg (by simp [hns]), replaceNumber_eq]
  rfl

/-- Witness for the amended claim C1 at the input "0812345678". -/
theorem claim_C1_amended_witness :
    formatNumber "0812345678" =
      String.mk
        ((digitsOf "0812345678").drop
          (if ("0812345678" : String).data.head? = some '0' then 1 else 0)
          ++ waSuffix) :=
  claim_C1_amended "0812345678" (by decide) (by decide) (by decide)

/-- Claim C2 fails on "0@c.us1": the handler passes it through unchanged
because it merely contains `@c.us` as a substring, although it does not
end with the suffix — so a non-canonical address is forwarded as is. -/
theorem claim_C2_counterexample :
    formatNumber "0@c.us1" = "0@c.us1" ∧
    endsWithSuffix "0@c.us1" = false := by
  decide

/-- Claim C2, amended: normalization passes an input through unchanged
exactly when the input contains the substring `@c.us`; every input that
does not contain it is rewritten into the canonical form
`<digits>@c.us`. -/
theorem claim_C2_amended (x : String) :
    (formatNumber x = x ↔ includesSub waSuffix x.data = true) ∧
    (includesSub waSuffix x.data = false →
      ∃ d : List Char, (∀ c ∈ d, c.isDigit = true) ∧
        formatNumber x = String.mk (d ++ waSuffix)) := by
  constructor
  · constructor
    · intro h
      cases hx : includesSub waSuffix x.data with
      | true => rfl
      | false =>
        rw [formatNumber, if_neg (by simp [hx])] at h
        have hdata : replaceNumber x.data ++ waSuffix = x.data :=
          congrArg String.data h
        have htrue : includesSub waSuffix x.data = true := by
          rw [← hdata]
          exact includesSub_append_right _ _
        rw [hx] at htrue
        exact htrue
    · intro h
      rw [formatNumber, if_pos (by simp [h])]
  · intro hx
    refine ⟨replaceNumber x.data, ?_, ?_⟩
    · intro c hc
      rw [replaceNumber_eq] at hc
      have := List.mem_of_mem_drop hc
      exact (List.mem_filter.mp this).2
    · rw [formatNumber, if_neg (by simp [hx])]

/-- Witness for the amended claim C2 at the input "0811". -/
theorem claim_C2_amended_witness :
    (formatNumber "0811" = "0811" ↔
      includesSub waSuffix ("0811").data = true) ∧
    (∃ d : List Char, (∀ c ∈ d, c.isDigit = true) ∧
      formatNumber "0811" = String.mk (d ++ waSuffix)) :=
  ⟨(claim_C2_amended "0811").1, (claim_C2_amended "0811").2 (by decide)⟩

/-- C3: the recipient normalization is idempotent on every string, and in
particular an already-canonical address `<digits>@c.us` is returned
unchanged. -/
theorem claim_C3_idempotent (x : String) (d : List Char) :
    formatNumber (formatNumber x) = formatNumber x ∧
    ((∀ c ∈ d, c.isDigit = true) →
      formatNumber (String.mk (d ++ waSuffix)) = String.mk (d ++ waSuffix)) := by
  have pass : ∀ l : List Char,
      formatNumber (String.mk (l ++ waSuffix)) = String.mk (l ++ waSuffix) := by
    intro l
    rw [formatNumber, if_pos]
    show includesSub waSuffix (l ++ waSuffix) = true
    exact includesSub_append_right _ _
  constructor
  · cases hx : includesSub waSuffix x.data with
    | true =>
      have hfx : formatNumber x = x := by
        rw [formatNumber, if_pos (by simp [hx])]
      rw [hfx]
      exact hfx
    | false =>
      have hfx : formatNumber x = String.mk (replaceNumber x.data ++ waSuffix) := by
        rw [formatNumber, if_neg (by simp [hx])]
      rw [hfx, pass]
  · intro _
    exact pass d

/-- Witness for C3 at the input "+0812" and the digit list ['8', '1']. -/
theorem claim_C3_witness :
    formatNumber (formatNumber "+0812") = formatNumber "+0812" ∧
    formatNumber (String.mk (['8', '1'] ++ waSuffix))
      = String.mk (['8', '1'] ++ waSuffix) :=
  ⟨(claim_C3_idempotent "+0812" ['8', '1']).1,
   (claim_C3_idempotent "+0812" ['8', '1']).2 (by decide)⟩

/-- C4: a POST /send-message request whose `number` or `message` field is
absent gets HTTP 400 with success:false, and the adapter's send operation
is never invoked. -/
theorem claim_C4_validation (body : SendMessageBody)
    (adapter : String → String → Except String String)
    (h : body.number = none ∨ body.message = none) :
    (handleSendMessage body adapter).response.status = 400 ∧
    (handleSendMessage body adapter).response.success = false ∧
    (handleSendMessage body adapter).adapterCalled = none := by
  have hcond : (!(truthy body.number) || !(truthy body.message)) = true := by
    rcases h with h | h <;> simp [h, truthy]
  unfold handleSendMessage
  rw [if_pos (by simp [hcond])]
  exact ⟨rfl, rfl, rfl⟩

/-- Witness for C4: a request with `number` absent. -/
theorem claim_C4_witness :
    (handleSendMessage { number := none, message := some "hi" }
        (fun _ _ => Except.ok "ID")).response.status = 400 ∧
    (handleSendMessage { number := none, message := some "hi" }
        (fun _ _ => Except.ok "ID")).response.success = false ∧
    (handleSendMessage { number := none, message := some "hi" }
        (fun _ _ => Except.ok "ID")).adapterCalled = none :=
  claim_C4_validation { number := none, message := some "hi" }
    (fun _ _ => Except.ok "ID") (Or.inl rfl)

/-- C5: a POST /send-image request with `imageBase64` or `number` absent
gets HTTP 400 and never invokes the adapter; and when `mimeType` is
absent, any adapter call the handler makes carries the default mime type
image/jpeg and the filename extension derived from it. -/
theorem claim_C5_image (body : SendImageBody) (mimeExt : String → String)
    (adapter : ImageSendCall → Except String String) :
    (body.imageBase64 = none ∨ body.number = none →
      (handleSendImage body mimeExt adapter).response.status = 400 ∧
      (handleSendImage body mimeExt adapter).adapterCall = none) ∧
    (body.mimeType = none →
      ∀ call ∈ (handleSendImage body mimeExt adapter).adapterCall,
        call.media.mimetype = "image/jpeg" ∧
        call.media.filename = "image." ++ mimeExt "image/jpeg") := by
  constructor
  · intro h
    have hcond : (!(truthy body.imageBase64) || !(truthy body.number)) = true := by
      rcases h with h | h <;> simp [h, truthy]
    unfold handleSendImage
    rw [if_pos (by simp [hcond])]
    exact ⟨rfl, rfl⟩
  · intro hmt call hcall
    have hc : call = imageCall body mimeExt := by
      unfold handleSendImage at hcall
      by_cases hcond : (!(truthy body.imageBase64) || !(truthy body.number)) = true
      · rw [if_pos (by simp [hcond])] at hcall
        simp at hcall
      · rw [if_neg (by simp [hcond])] at hcall
        cases hra : adapter (imageCall body mimeExt) with
        | ok id =>
          rw [hra] at hcall
          exact (by simpa using hcall : imageCall body mimeExt = call).symm
        | error e =>
          rw [hra] at hcall
          exact (by simpa using hcall : imageCall body mimeExt = call).symm
    rw [hc]
    unfold imageCall
    rw [hmt]
    exact ⟨rfl, rfl⟩

/-- Witness for C5: one request with `imageBase64` absent, one valid
request with `mimeType` absent. -/
theorem claim_C5_witness :
    ((handleSendImage
        { number := some "0812", caption := none, imageBase64 := none,
          mimeType := none }
        (fun _ => "jpeg") (fun _ => Except.ok "ID")).response.status = 400 ∧
      (handleSendImage
        { number := some "0812", caption := none, imageBase64 := none,
          mimeType := none }
        (fun _ => "jpeg") (fun _ => Except.ok "ID")).adapterCall = none) ∧
    (∀ call ∈ (handleSendImage
        { number := some "0812", caption := none,
          imageBase64 := some "AAAA", mimeType := none }
        (fun _ => "jpeg") (fun _ => Except.ok "ID")).adapterCall,
      call.media.mimetype = "image/jpeg" ∧
      call.media.filename = "image." ++ (fun _ : String => "jpeg") "image/jpeg") :=
  ⟨(claim_C5_image
      { number := some "0812", caption := none, imageBase64 := none,
        mimeType := none }
      (fun _ => "jpeg") (fun _ => Except.ok "ID")).1 (Or.inl rfl),
   (claim_C5_image
      { number := some "0812", caption := none, imageBase64 := some "AAAA",
        mimeType := none }
      (fun _ => "jpeg") (fun _ => Except.ok "ID")).2 rfl⟩

/-- Claim C6 fails: the validation failure (400) of POST /send-message
carries success:false and a message field but no error field, so not
every failure response of the gateway has all three of success, message,
error.  (Dually, the 400 of POST /send-image carries no message field.) -/
theorem claim_C6_counterexample :
    (handleSendMessage { number := none, message := none }
        (fun _ _ => Except.ok "ID")).response.status = 400 ∧
    (handleSendMessage { number := none, message := none }
        (fun _ _ => Except.ok "ID")).response.success = false ∧
    (handleSendMessage { number := none, message := none }
        (fun _ _ => Except.ok "ID")).response.error = none ∧
    (handleSendImage
        { number := none, caption := none, imageBase64 := none,
          mimeType := none }
        (fun _ => "jpeg") (fun _ => Except.ok "ID")).response.status = 400 ∧
    (handleSendImage
        { number := none, caption := none, imageBase64 := none,
          mimeType := none }
        (fun _ => "jpeg") (fun _ => Except.ok "ID")).response.message = none :=
  ⟨rfl, rfl, rfl, rfl, rfl⟩

/-- Claim C6, amended: adapter failures (500) of both send endpoints and
the catch-all error middleware respond with success:false and both a
message and an error field; validation failures (400) respond with
success:false but carry only a message field (POST /send-message) or only
an error field (POST /send-image). -/
theorem claim_C6_amended :
    (∀ e : String,
      (errorMiddleware e).status = 500 ∧
      (errorMiddleware e).success = false ∧
      (errorMiddleware e).message.isSome = true ∧
      (errorMiddleware e).error = some e) ∧
    (∀ (body : SendMessageBody)
        (adapter : String → String → Except String String),
      (handleSendMessage body adapter).response.status = 500 →
      (handleSendMessage body adapter).response.success = false ∧
      (handleSendMessage body adapter).response.message.isSome = true ∧
      (handleSendMessage body adapter).response.error.isSome = true) ∧
    (∀ (body : SendImageBody) (mimeExt : String → String)
        (adapter : ImageSendCall → Except String String),
      (handleSendImage body mimeExt adapter).response.status = 500 →
      (handleSendImage body mimeExt adapter).response.success = false ∧
      (handleSendImage body mimeExt adapter).response.message.isSome = true ∧
      (handleSendImage body mimeExt adapter).response.error.isSome = true) ∧
    (∀ (body : SendMessageBody)
        (adapter : String → String → Except String String),
      (handleSendMessage body adapter).response.status = 400 →
      (handleSendMessage body adapter).response.success = false ∧
      (handleSendMessage body adapter).response.message.isSome = true ∧
      (handleSendMessage body adapter).response.error = none) ∧
    (∀ (body : SendImageBody) (mimeExt : String → String)
        (adapter : ImageSendCall → Except String String),
      (handleSendImage body mimeExt adapter).response.status = 400 →
      (handleSendImage body mimeExt adapter).response.success = false ∧
      (handleSendImage body mimeExt adapter).response.error.isSome = true ∧
      (handleSendImage body mimeExt adapter).response.message = none) := by
  refine ⟨fun e => ⟨rfl, rfl, rfl, rfl⟩, ?_, ?_, ?_, ?_⟩
  · intro body adapter h
    unfold handleSendMessage at h ⊢
    by_cases hcond : (!(truthy body.number) || !(truthy body.message)) = true
    · rw [if_pos (by simp [hcond])] at h
      simp at h
    · rw [if_neg (by simp [hcond])] at h ⊢
      cases hra : adapter (formatNumber (body.number.getD ""))
          (body.message.getD "") with
      | ok id =>
        rw [hra] at h
        simp at h
      | error e =>
        exact ⟨rfl, rfl, rfl⟩
  · intro body mimeExt adapter h
    unfold handleSendImage at h ⊢
    by_cases hcond : (!(truthy body.imageBase64) || !(truthy body.number)) = true
    · rw [if_pos (by simp [hcond])] at h
      simp at h
    · rw [if_neg (by simp [hcond])] at h ⊢
      cases hra : adapter (imageCall body mimeExt) with
      | ok id =>
        rw [hra] at h
        simp at h
      | error e =>
        exact ⟨rfl, rfl, rfl⟩
  · intro body adapter h
    unfold handleSendMessage at h ⊢
    by_cases hcond : (!(truthy body.number) || !(truthy body.message)) = true
    · rw [if_pos (by simp [hcond])]
      exact ⟨rfl, rfl, rfl⟩
    · rw [if_neg (by simp [hcond])] at h
      cases hra : adapter (formatNumber (body.number.getD ""))
          (body.message.getD "") with
      | ok id =>
        rw [hra] at h
        simp at h
      | error e =>
        rw [hra] at h
        simp at h
  · intro body mimeExt adapter h
    unfold handleSendImage at h ⊢
    by_cases hcond : (!(truthy body.imageBase64) || !(truthy body.number)) = true
    · rw [if_pos (by simp [hcond])]
      exact ⟨rfl, rfl, rfl⟩
    · rw [if_neg (by simp [hcond])] at h
      cases hra : adapter (imageCall body mimeExt) with
      | ok id =>
        rw [hra] at h
        simp at h
      | error e =>
        rw [hra] at h
        simp at h

/-- Witness for the amended C6, applied to the middleware at "boom", to an
adapter that fails with "down" (500 cases), and to empty bodies (400
cases). -/
theorem claim_C6_amended_witness :
    ((errorMiddleware "boom").status = 500 ∧
      (errorMiddleware "boom").success = false ∧
      (errorMiddleware "boom").message.isSome = true ∧
      (errorMiddleware "boom").error = some "boom") ∧
    ((handleSendMessage { number := some "0812", message := some "hi" }
        (fun _ _ => Except.error "down")).response.success = false ∧
      (handleSendMessage { number := some "0812", message := some "hi" }
        (fun _ _ => Except.error "down")).response.message.isSome = true ∧
      (handleSendMessage { number := some "0812", message := some "hi" }
        (fun _ _ => Except.error "down")).response.error.isSome = true) ∧
    ((handleSendImage
        { number := some "0812", caption := none,
          imageBase64 := some "AAAA", mimeType := none }
        (fun _ => "jpeg") (fun _ => Except.error "down")).response.success = false ∧
      (handleSendImage
        { number := some "0812", caption := none,
          imageBase64 := some "AAAA", mimeType := none }
        (fun _ => "jpeg") (fun _ => Except.error "down")).response.message.isSome = true ∧
      (handleSendImage
        { number := some "0812", caption := none,
          imageBase64 := some "AAAA", mimeType := none }
        (fun _ => "jpeg") (fun _ => Except.error "down")).response.error.isSome = true) ∧
    ((handleSendMessage { number := none, message := none }
        (fun _ _ => Except.ok "ID")).response.success = false ∧
      (handleSendMessage { number := none, message := none }
        (fun _ _ => Except.ok "ID")).response.message.isSome = true ∧
      (handleSendMessage { number := none, message := none }
        (fun _ _ => Except.ok "ID")).response.error = none) ∧
    ((handleSendImage
        { number := none, caption := none, imageBase64 := none,
          mimeType := none }
        (fun _ => "jpeg") (fun _ => Except.ok "ID")).response.success = false ∧
      (handleSendImage
        { number := none, caption := none, imageBase64 := none,
          mimeType := none }
        (fun _ => "jpeg") (fun _ => Except.ok "ID")).response.error.isSome = true ∧
      (handleSendImage
        { number := none, caption := none, imageBase64 := none,
          mimeType := none }
        (fun _ => "jpeg") (fun _ => Except.ok "ID")).response.message = none) :=
  ⟨claim_C6_amended.1 "boom",
   claim_C6_amended.2.1 { number := some "0812", message := some "hi" }
     (fun _ _ => Except.error "down") rfl,
   claim_C6_amended.2.2.1
     { number := some "0812", caption := none, imageBase64 := some "AAAA",
       mimeType := none }
     (fun _ => "jpeg") (fun _ => Except.error "down") rfl,
   claim_C6_amended.2.2.2.1 { number := none, message := none }
     (fun _ _ => Except.ok "ID") rfl,
   claim_C6_amended.2.2.2.2
     { number := none, caption := none, imageBase64 := none,
       mimeType := none }
     (fun _ => "jpeg") (fun _ => Except.ok "ID") rfl⟩

/-- C7: GET /status with no current session returns exactly
connected:false, status "Waiting for connection", info null; with a
session it returns connected:true together with the session snapshot of
wid user, platform, and pushname. -/
theorem claim_C7_status :
    handleStatus none =
      { connected := false, status := "Waiting for connection", info := none } ∧
    ∀ i : ClientInfo,
      (handleStatus (some i)).connected = true ∧
      (handleStatus (some i)).info =
        some { wid := i.wid.user, platform := i.platform,
               pushname := i.pushname } :=
  ⟨rfl, fun _ => ⟨rfl, rfl⟩⟩

/-- C8: for the body number "081234567890", message "hi", POST
/send-message forwards the normalized address 81234567890@c.us to the
adapter; whenever the adapter succeeds with some id, the response is 200
with success:true, message "Message sent successfully", and that id as
data. -/
theorem claim_C8_example (adapter : String → String → Except String String)
    (id : String) (h : adapter "81234567890@c.us" "hi" = Except.ok id) :
    (handleSendMessage
        { number := some "081234567890", message := some "hi" }
        adapter).adapterCalled = some ("81234567890@c.us", "hi") ∧
    (handleSendMessage
        { number := some "081234567890", message := some "hi" }
        adapter).response =
      { status := 200, success := true,
        message := some "Message sent successfully", error := none,
        data := some id } := by
  have hfmt : formatNumber "081234567890" = "81234567890@c.us" := by decide
  have hra : adapter (formatNumber ((some "081234567890").getD ""))
      (((some "hi") : Option String).getD "") = Except.ok id := by
    rw [show formatNumber ((some "081234567890").getD "")
          = formatNumber "081234567890" from rfl, hfmt]
    exact h
  unfold handleSendMessage
  rw [if_neg (by decide), hra]
  constructor
  · rw [show formatNumber ((some "081234567890").getD "")
        = formatNumber "081234567890" from rfl, hfmt]
    rfl
  · rfl

/-- Witness for C8 with an adapter succeeding with id "MSGID". -/
theorem claim_C8_witness :
    (handleSendMessage
        { number := some "081234567890", message := some "hi" }
        (fun _ _ => Except.ok "MSGID")).adapterCalled
      = some ("81234567890@c.us", "hi") ∧
    (handleSendMessage
        { number := some "081234567890", message := some "hi" }
        (fun _ _ => Except.ok "MSGID")).response =
      { status := 200, success := true,
        message := some "Message sent successfully", error := none,
        data := some "MSGID" } :=
  claim_C8_example (fun _ _ => Except.ok "MSGID") "MSGID" rfl

/-- C9: with both fields present, when the adapter throws "Evaluation
failed", POST /send-message responds with HTTP 500 and the body
success:false, message "Failed to send message", error "Evaluation
failed". -/
theorem claim_C9_adapter_error (body : SendMessageBody)
    (adapter : String → String → Except String String)
    (hn : truthy body.number = true) (hm : truthy body.message = true)
    (he : adapter (formatNumber (body.number.getD "")) (body.message.getD "")
      = Except.error "Evaluation failed") :
    (handleSendMessage body adapter).response =
      { status := 500, success := false,
        message := some "Failed to send message",
        error := some "Evaluation failed", data := none } := by
  unfold handleSendMessage
  rw [if_neg (by simp [hn, hm]), he]

/-- Witness for C9 with the body number "0812", message "hi" and an
adapter that always throws "Evaluation failed". -/
theorem claim_C9_witness :
    (handleSendMessage { number := some "0812", message := some "hi" }
        (fun _ _ => Except.error "Evaluation failed")).response =
      { status := 500, success := false,
        message := some "Failed to send message",
        error := some "Evaluation failed", data := none } :=
  claim_C9_adapter_error { number := some "0812", message := some "hi" }
    (fun _ _ => Except.error "Evaluation failed") (by decide) (by decide) rfl

/-- C10: the required-field checks treat a present-but-empty string field
exactly as an absent one: the handler's entire result is identical to the
absent-field result, a 400 response with no adapter invocation. -/
theorem claim_C10_empty_falsy :
    (∀ (m : Option String) (adapter : String → String → Except String String),
      handleSendMessage { number := some "", message := m } adapter
        = handleSendMessage { number := none, message := m } adapter ∧
      (handleSendMessage { number := some "", message := m } adapter).response.status
        = 400 ∧
      (handleSendMessage { number := some "", message := m } adapter).adapterCalled
        = none) ∧
    (∀ (n : Option String) (adapter : String → String → Except String String),
      handleSendMessage { number := n, message := some "" } adapter
        = handleSendMessage { number := n, message := none } adapter ∧
      (handleSendMessage { number := n, message := some "" } adapter).response.status
        = 400 ∧
      (handleSendMessage { number := n, message := some "" } adapter).adapterCalled
        = none) ∧
    (∀ (n c mt : Option String) (mimeExt : String → String)
        (adapter : ImageSendCall → Except String String),
      handleSendImage
          { number := n, caption := c, imageBase64 := some "", mimeType := mt }
          mimeExt adapter
        = handleSendImage
            { number := n, caption := c, imageBase64 := none, mimeType := mt }
            mimeExt adapter ∧
      (handleSendImage
          { number := n, caption := c, imageBase64 := some "", mimeType := mt }
          mimeExt adapter).response.status = 400 ∧
      (handleSendImage
          { number := n, caption := c, imageBase64 := some "", mimeType := mt }
          mimeExt adapter).adapterCall = none) ∧
    (∀ (i c mt : Option String) (mimeExt : String → String)
        (adapter : ImageSendCall → Except String String),
      handleSendImage
          { number := some "", caption := c, imageBase64 := i, mimeType := mt }
          mimeExt adapter
        = handleSendImage
            { number := none, caption := c, imageBase64 := i, mimeType := mt }
            mimeExt adapter ∧
      (handleSendImage
          { number := some "", caption := c, imageBase64 := i, mimeType := mt }
          mimeExt adapter).response.status = 400 ∧
      (handleSendImage
          { number := some "", caption := c, imageBase64 := i, mimeType := mt }
          mimeExt adapter).adapterCall = none) := by
  refine ⟨?_, ?_, ?_, ?_⟩
  · intro m adapter
    refine ⟨?_, rfl, rfl⟩
    unfold handleSendMessage
    rfl
  · intro n adapter
    have hcond : (!(truthy n) || !(truthy (some ""))) = true := by
      simp [show truthy (some "") = false from rfl]
    have hcond' : (!(truthy n) || !(truthy (none : Option String))) = true := by
      simp [show truthy (none : Option String) = false from rfl]
    unfold handleSendMessage
    rw [if_pos hcond, if_pos hcond']
    exact ⟨rfl, rfl, rfl⟩
  · intro n c mt mimeExt adapter
    refine ⟨?_, rfl, rfl⟩
    unfold handleSendImage
    rfl
  · intro i c mt mimeExt adapter
    have hcond : (!(truthy i) || !(truthy (some ""))) = true := by
      simp [show truthy (some "") = false from rfl]
    have hcond' : (!(truthy i) || !(truthy (none : Option String))) = true := by
      simp [show truthy (none : Option String) = false from rfl]
    unfold handleSendImage
    rw [if_pos hcond, if_pos hcond']
    exact ⟨rfl, rfl, rfl⟩
